import Mathlib

set_option maxRecDepth 10000

/-!
Verification development for the tango netplay core.

The definitions below are shallow embeddings of functions and trap handlers
from the repository sources:

  * `src/core/tango-core/src/hooks.rs`         (adapter lookup)
  * `src/core/tango-core/src/hooks/bn3.rs`     (BN3 hooks: step_rng, rng1/rng2
    generation, shadow/fastforwarder trap handlers, predict_rx)
  * `src/core/tango-core/src/hooks/bn5.rs`     (BN5 hooks)
  * `src/tango/src/gui/play_pane.rs`           (lobby commitment ceremony,
    state chunking, RNG seed derivation)

Machine integers are embedded as `Nat` with explicit reduction modulo `2^w`
where the Rust code uses wrapping arithmetic.  Byte strings are `List Nat`
with each element a byte value.
-/

namespace Tango

/-! ## 32-bit wrapping arithmetic -/

/-- Wrapping 32-bit addition, as `std::num::Wrapping<u32>` addition. -/
def add32 (a b : Nat) : Nat := (a + b) % 4294967296

/-- Wrapping 32-bit subtraction, as `std::num::Wrapping<u32>` subtraction. -/
def sub32 (a b : Nat) : Nat :=
  (a % 4294967296 + (4294967296 - b % 4294967296)) % 4294967296

/-- Wrapping 32-bit multiplication, as `std::num::Wrapping<u32>` multiplication. -/
def mul32 (a b : Nat) : Nat := (a * b) % 4294967296

/-! ## step_rng (bn3.rs lines 39-44 and bn5.rs lines 48-53; the two are
textually identical) -/

/-- Embedding of `step_rng` from `hooks/bn3.rs` / `hooks/bn5.rs`:
`(((seed * 2) - (seed >> 0x1f) + 1) ^ 0x873ca9e5)` in `Wrapping<u32>`. -/
def step_rng (seed : Nat) : Nat :=
  (add32 (sub32 (mul32 seed 2) (seed >>> 0x1f)) 1) ^^^ 0x873ca9e5

/-- The spec-side formula of claim C2, written from the spec's words:
`s' = ((2s - (s >> 31) + 1) XOR 0x873CA9E5)` with wrapping (mod `2^32`)
unsigned arithmetic.  For `s < 2^32` the subtraction never underflows
(`s >> 31 <= 1 <= 2s + 1`), so plain truncated `Nat` subtraction realizes
the wrapping semantics. -/
def step_rng_specFormula (s : Nat) : Nat :=
  ((2 * s - (s >>> 31) + 1) % 4294967296) ^^^ 0x873ca9e5

/-! ## Shared RNG model and rng1/rng2 generation (bn3.rs lines 46-60,
bn5.rs lines 32-46)

Modelled from the spec: the shared RNG itself is the external `rand` crate's
ChaCha-style generator ("`shared_rng: Rng` — ChaCha-style stream deterministic
under the common seed"); it is embedded abstractly as a stream of draws
together with a position.  `rng.gen_range(0..=0xffff)` consumes one draw,
reduced into the range `0..=0xFFFF`. -/
structure SharedRng where
  draws : Nat → Nat
  pos : Nat

/-- Modelled from the spec: one call of `rand::Rng::gen_range(0..=0xffffusize)`
on the shared RNG ("Each generator draws a uniform `0..=0xFFFF` step count
before sampling"). -/
def genRange16 (r : SharedRng) : Nat × SharedRng :=
  (r.draws r.pos % 65536, ⟨r.draws, r.pos + 1⟩)

/-- Iterate `step_rng` a given number of times, as the `for` loops in
`generate_rng1_state` / `generate_rng2_state`. -/
def iterStep : Nat → Nat → Nat
  | 0, s => s
  | n + 1, s => iterStep n (step_rng s)

/-- Embedding of `generate_rng1_state` (bn3.rs lines 46-52, bn5.rs lines
32-38): start from 0 and apply `step_rng` a `gen_range(0..=0xffff)`-drawn
number of times. -/
def generate_rng1_state (r : SharedRng) : Nat × SharedRng :=
  let d := genRange16 r
  (iterStep d.1 0, d.2)

/-- Embedding of `generate_rng2_state` (bn3.rs lines 54-60, bn5.rs lines
40-46): as `generate_rng1_state` but starting from `0xa338244f`. -/
def generate_rng2_state (r : SharedRng) : Nat × SharedRng :=
  let d := genRange16 r
  (iterStep d.1 0xa338244f, d.2)

/-- The first ("offerer") rng1 candidate drawn at `comm_menu_init_ret`. -/
def rng1_offerer_candidate (r : SharedRng) : Nat := (generate_rng1_state r).1

/-- The second ("answerer") rng1 candidate drawn at `comm_menu_init_ret`. -/
def rng1_answerer_candidate (r : SharedRng) : Nat :=
  (generate_rng1_state (generate_rng1_state r).2).1

/-- Embedding of the rng1 selection in the primary's `comm_menu_init_ret`
handler (bn3.rs lines 188-201, bn5.rs lines 108-121): generate the offerer
candidate, then the answerer candidate, and install the offerer candidate
exactly when the local side is the offerer. -/
def primary_comm_menu_rng1 (isOfferer : Bool) (r : SharedRng) : Nat :=
  let o := generate_rng1_state r
  let a := generate_rng1_state o.2
  if isOfferer then o.1 else a.1

/-- Embedding of the rng1 selection in the shadow's `comm_menu_init_ret`
handler (bn3.rs lines 560-575, bn5.rs lines 172-185): generate the two
candidates in the same order, but install the answerer candidate exactly when
the local side (whose opponent the shadow simulates) is the offerer. -/
def shadow_comm_menu_rng1 (isOfferer : Bool) (r : SharedRng) : Nat :=
  let o := generate_rng1_state r
  let a := generate_rng1_state o.2
  if isOfferer then a.1 else o.1

/-! ## Input model (spec section 3; used by the bn3.rs / bn5.rs handlers) -/

/-- The per-tick input record (`input::Input`). -/
structure Input where
  local_tick : Nat
  remote_tick : Nat
  joyflags : Nat
  rx : List Nat
  is_prediction : Bool
deriving DecidableEq

/-- A paired local/remote input (`input::Pair`).  The Rust field names are
`local` and `remote`; `local` is a Lean keyword so the fields carry a trailing
underscore. -/
structure Pair where
  local_ : Input
  remote_ : Input
deriving DecidableEq

/-! ## Shadow and fastforwarder trap handler models (bn3.rs, bn5.rs) -/

/-- Rendering of the bn3.rs/bn5.rs format string
`"copy input data: local tick != remote tick (in battle tick = {}): {} != {}"`. -/
def msg_copy_local_ne_remote (currentTick lt rt : Nat) : String :=
  "copy input data: local tick != remote tick (in battle tick = " ++
    toString currentTick ++ "): " ++ toString lt ++ " != " ++ toString rt

/-- Rendering of the bn3.rs/bn5.rs format string
`"copy input data: input tick != in battle tick: {} != {}"`. -/
def msg_copy_input_ne_battle (lt currentTick : Nat) : String :=
  "copy input data: input tick != in battle tick: " ++ toString lt ++ " != " ++
    toString currentTick

/-- Rendering of the bn3.rs/bn5.rs format string
`"read joyflags: local tick != remote tick (in battle tick = {}): {} != {}"`. -/
def msg_read_local_ne_remote (currentTick lt rt : Nat) : String :=
  "read joyflags: local tick != remote tick (in battle tick = " ++
    toString currentTick ++ "): " ++ toString lt ++ " != " ++ toString rt

/-- Rendering of the bn3.rs/bn5.rs format string
`"read joyflags: input tick != in battle tick: {} != {}"`. -/
def msg_read_input_ne_battle (lt currentTick : Nat) : String :=
  "read joyflags: input tick != in battle tick: " ++ toString lt ++ " != " ++
    toString currentTick

/-- Rendering of the bn5.rs format string
`"copy input data: round tick = {} but game tick = {}"`. -/
def msg_copy_round_ne_game (roundTick gameTick : Nat) : String :=
  "copy input data: round tick = " ++ toString roundTick ++
    " but game tick = " ++ toString gameTick

/-- Outcome of one run of a shadow rx-injection trap handler. -/
inductive CopyInputResult where
  /-- The call `peek_out_input_pair` returned `None`: handler returns, nothing injected. -/
  | noPair
  /-- The one-tick permissiveness hack fired (`ip.local.local_tick + 1 ==
  round.current_tick()`): handler returns, no error, nothing injected. -/
  | oneTickPermissive
  /-- The handler called `set_anyhow_error` with this message; nothing injected. -/
  | errorSet (msg : String)
  /-- Both rx packets were written into emulator memory and
  `set_input_injected` was called. -/
  | injected (localRx remoteRx : List Nat)
deriving DecidableEq

/-- Embedding of the shadow's rx-injection handler body in bn3.rs (the
`make_send_and_receive_call_hook` closure installed at the three
`handle_input_*_send_and_receive_call` sites, lines 491-553), given the
peeked input pair and the round's current tick. -/
def bn3_shadow_copy_input (pair : Option Pair) (currentTick : Nat) : CopyInputResult :=
  match pair with
  | none => .noPair
  | some ip =>
    if ip.local_.local_tick + 1 = currentTick then .oneTickPermissive
    else if ip.local_.local_tick ≠ ip.remote_.local_tick then
      .errorSet (msg_copy_local_ne_remote currentTick ip.local_.local_tick
        ip.remote_.local_tick)
    else if ip.local_.local_tick ≠ currentTick then
      .errorSet (msg_copy_input_ne_battle ip.local_.local_tick currentTick)
    else .injected ip.local_.rx ip.remote_.rx

/-- Whether a `CopyInputResult` records a call to `set_anyhow_error`. -/
def isErrorSet : CopyInputResult → Bool
  | .errorSet _ => true
  | _ => false

/-- Embedding of the shadow's `copy_input_data_entry` handler body in bn5.rs
(lines 385-445).  BN5 first compares the in-game tick against the round tick,
setting an error but falling through; the remaining structure matches bn3.
The result is the list of error messages passed to `set_anyhow_error`, in
order, together with the injection outcome. -/
def bn5_shadow_copy_input (gameTick : Nat) (pair : Option Pair)
    (currentTick : Nat) : List String × CopyInputResult :=
  let tickErrs :=
    if gameTick ≠ currentTick then [msg_copy_round_ne_game currentTick gameTick]
    else []
  match pair with
  | none => (tickErrs, .noPair)
  | some ip =>
    if ip.local_.local_tick + 1 = currentTick then (tickErrs, .oneTickPermissive)
    else if ip.local_.local_tick ≠ ip.remote_.local_tick then
      (tickErrs ++ [msg_copy_local_ne_remote currentTick ip.local_.local_tick
        ip.remote_.local_tick],
       .errorSet (msg_copy_local_ne_remote currentTick ip.local_.local_tick
        ip.remote_.local_tick))
    else if ip.local_.local_tick ≠ currentTick then
      (tickErrs ++ [msg_copy_input_ne_battle ip.local_.local_tick currentTick],
       .errorSet (msg_copy_input_ne_battle ip.local_.local_tick currentTick))
    else (tickErrs, .injected ip.local_.rx ip.remote_.rx)

/-- Outcome of the shadow's `main_read_joyflags` handler once a committed
state exists and an input pair was taken. -/
inductive ShadowReadResult where
  /-- The call `take_in_input_pair` returned `None`: no input consumed, no r4 write. -/
  | noInput
  /-- The handler called `set_anyhow_error` with this message. -/
  | errorSet (msg : String)
  /-- The out pair was stored and this value was written to register r4. -/
  | advanced (outPair : Pair) (r4 : Nat)
deriving DecidableEq

/-- Embedding of the input-consuming part of the shadow's `main_read_joyflags`
handler in bn3.rs (lines 682-716): given the taken input pair, the round's
current tick, and the game's tx packet read from emulator memory. -/
def bn3_shadow_read_joyflags (pair : Option Pair) (currentTick : Nat)
    (tx : List Nat) : ShadowReadResult :=
  match pair with
  | none => .noInput
  | some ip =>
    if ip.local_.local_tick ≠ ip.remote_.local_tick then
      .errorSet (msg_read_local_ne_remote currentTick ip.local_.local_tick
        ip.remote_.local_tick)
    else if ip.local_.local_tick ≠ currentTick then
      .errorSet (msg_read_input_ne_battle ip.local_.local_tick currentTick)
    else
      .advanced
        ⟨ip.local_,
         { local_tick := ip.remote_.local_tick
           remote_tick := ip.remote_.remote_tick
           joyflags := ip.remote_.joyflags
           rx := tx
           is_prediction := false }⟩
        (ip.remote_.joyflags ||| 0xfc00)

/-- Outcome of the fastforwarder's `main_read_joyflags` handler. -/
inductive FfReadResult where
  /-- The call `peek_input_pair` returned `None`: `on_inputs_exhausted` was called. -/
  | inputsExhausted
  /-- The handler called `set_anyhow_error` with this message. -/
  | errorSet (msg : String)
  /-- This value was written to register r4; `savesDirty` records whether the
  dirty snapshot was captured (`current_tick == dirty_time`). -/
  | advanced (r4 : Nat) (savesDirty : Bool)
deriving DecidableEq

/-- Embedding of the fastforwarder's `main_read_joyflags` handler in bn3.rs
(lines 888-933), after the commit-time snapshot step: peek the pair, check
tick alignment, write `joyflags | 0xFC00` to r4, and capture the dirty
snapshot at `dirty_time`. -/
def bn3_ff_read_joyflags (pair : Option Pair) (currentTick dirtyTime : Nat) :
    FfReadResult :=
  match pair with
  | none => .inputsExhausted
  | some ip =>
    if ip.local_.local_tick ≠ ip.remote_.local_tick then
      .errorSet (msg_read_local_ne_remote currentTick ip.local_.local_tick
        ip.remote_.local_tick)
    else if ip.local_.local_tick ≠ currentTick then
      .errorSet (msg_read_input_ne_battle ip.local_.local_tick currentTick)
    else .advanced (ip.local_.joyflags ||| 0xfc00) (decide (currentTick = dirtyTime))

/-- Embedding of the r4 write in the bn5.rs shadow `main_read_joyflags`
handler (line 372): `(ip.remote.joyflags | 0xfc00)`. -/
def bn5_shadow_read_joyflags_r4 (ip : Pair) : Nat :=
  ip.remote_.joyflags ||| 0xfc00

/-- Modelled from the spec: the primary driver's joyflags path goes through
`Round::add_local_input_and_fastforward` in `battle.rs`, which is not among
the provided sources.  Per the spec, `joyflags` is a "button bitmap, always
OR'd with `0xFC00` (bits reserved by the handheld hardware) before writing to
the emulator register". -/
def primary_joyflags_r4 (joyflags : Nat) : Nat := joyflags ||| 0xfc00

/-! ## predict_rx (bn3.rs lines 972-975) -/

/-- The little-endian u16 at byte offsets 4..6 of an rx buffer
(`byteorder::LittleEndian::read_u16(&rx[0x4..0x6])`). -/
def read_rx_tick (rx : List Nat) : Nat := rx.getD 4 0 + 256 * rx.getD 5 0

/-- Embedding of `BN3::predict_rx` (bn3.rs lines 972-975): read the
little-endian u16 at offsets 4..6 (`tick`), and write back the two bytes of
its wrapping successor `tick.wrapping_add(1)`. -/
def predict_rx (rx : List Nat) : List Nat :=
  (rx.set 4 ((read_rx_tick rx + 1) % 65536 % 256)).set 5
    ((read_rx_tick rx + 1) % 65536 / 256)

/-! ## State chunking (play_pane.rs lines 514-541) -/

/-- Fuel-driven worker for `chunksOf`; fuel at least the list length makes it
total for positive `n`. -/
def chunksOfAux (n : Nat) : Nat → List Nat → List (List Nat)
  | 0, _ => []
  | _, [] => []
  | fuel + 1, l => l.take n :: chunksOfAux n fuel (l.drop n)

/-- Embedding of Rust's `slice::chunks(n)`: the successive `n`-byte slices of
`l`, the last possibly shorter. -/
def chunksOf (n : Nat) (l : List Nat) : List (List Nat) :=
  chunksOfAux n l.length l

/-- Embedding of the chunk-sending loop in `run_connection_task`
(play_pane.rs lines 514-520): `zip(0..5, raw.chunks(32768).chain(repeat(&[])))`
sends exactly `CHUNKS_REQUIRED = 5` chunks, the tail ones empty when the
state is short. -/
def sent_chunks (s : List Nat) : List (List Nat) :=
  ((chunksOf 32768 s) ++ List.replicate 5 []).take 5

/-- Embedding of the receiver's reconstruction (play_pane.rs line 541):
`remote_chunks.into_iter().flatten().collect()`. -/
def reassembled_state (chunks : List (List Nat)) : List Nat := chunks.flatten

/-! ## RNG seed derivation (play_pane.rs line 557) -/

/-- Embedding of `rng_seed` in `run_connection_task`:
`zip(local_nonce, remote_nonce).map(|(x, y)| x ^ y)`. -/
def rng_seed (localNonce remoteNonce : List Nat) : List Nat :=
  List.zipWith (fun x y => x ^^^ y) localNonce remoteNonce

/-! ## Adapter lookup (hooks.rs lines 7-43) -/

/-- The game adapters named in `hooks::get`. -/
inductive Adapter where
  | MEGAMAN6_FXXBR6E
  | MEGAMAN6_GXXBR5E
  | ROCKEXE6_RXXBR6J
  | ROCKEXE6_GXXBR5J
  | MEGAMAN5_TP_BRBE
  | MEGAMAN5_TC_BRKE
  | ROCKEXE5_TOBBRBJ
  | ROCKEXE5_TOCBRKJ
  | MEGAMANBN4BMB4BE
  | MEGAMANBN4RSB4WE
  | ROCK_EXE4_BMB4BJ_10
  | ROCK_EXE4_BMB4BJ_11
  | ROCK_EXE4_RSB4WJ_10
  | ROCK_EXE4_RSB4WJ_11
deriving DecidableEq

/-- ASCII bytes of the ROM header title `MEGAMAN6_FXXBR6E`. -/
def title_MEGAMAN6_FXXBR6E : List Nat :=
  [0x4d, 0x45, 0x47, 0x41, 0x4d, 0x41, 0x4e, 0x36, 0x5f, 0x46, 0x58, 0x58, 0x42, 0x52, 0x36, 0x45]

/-- ASCII bytes of the ROM header title `MEGAMAN6_GXXBR5E`. -/
def title_MEGAMAN6_GXXBR5E : List Nat :=
  [0x4d, 0x45, 0x47, 0x41, 0x4d, 0x41, 0x4e, 0x36, 0x5f, 0x47, 0x58, 0x58, 0x42, 0x52, 0x35, 0x45]

/-- ASCII bytes of the ROM header title `ROCKEXE6_RXXBR6J`. -/
def title_ROCKEXE6_RXXBR6J : List Nat :=
  [0x52, 0x4f, 0x43, 0x4b, 0x45, 0x58, 0x45, 0x36, 0x5f, 0x52, 0x58, 0x58, 0x42, 0x52, 0x36, 0x4a]

/-- ASCII bytes of the ROM header title `ROCKEXE6_GXXBR5J`. -/
def title_ROCKEXE6_GXXBR5J : List Nat :=
  [0x52, 0x4f, 0x43, 0x4b, 0x45, 0x58, 0x45, 0x36, 0x5f, 0x47, 0x58, 0x58, 0x42, 0x52, 0x35, 0x4a]

/-- ASCII bytes of the ROM header title `MEGAMAN5_TP_BRBE`. -/
def title_MEGAMAN5_TP_BRBE : List Nat :=
  [0x4d, 0x45, 0x47, 0x41, 0x4d, 0x41, 0x4e, 0x35, 0x5f, 0x54, 0x50, 0x5f, 0x42, 0x52, 0x42, 0x45]

/-- ASCII bytes of the ROM header title `MEGAMAN5_TC_BRKE`. -/
def title_MEGAMAN5_TC_BRKE : List Nat :=
  [0x4d, 0x45, 0x47, 0x41, 0x4d, 0x41, 0x4e, 0x35, 0x5f, 0x54, 0x43, 0x5f, 0x42, 0x52, 0x4b, 0x45]

/-- ASCII bytes of the ROM header title `ROCKEXE5_TOBBRBJ`. -/
def title_ROCKEXE5_TOBBRBJ : List Nat :=
  [0x52, 0x4f, 0x43, 0x4b, 0x45, 0x58, 0x45, 0x35, 0x5f, 0x54, 0x4f, 0x42, 0x42, 0x52, 0x42, 0x4a]

/-- ASCII bytes of the ROM header title `ROCKEXE5_TOCBRKJ`. -/
def title_ROCKEXE5_TOCBRKJ : List Nat :=
  [0x52, 0x4f, 0x43, 0x4b, 0x45, 0x58, 0x45, 0x35, 0x5f, 0x54, 0x4f, 0x43, 0x42, 0x52, 0x4b, 0x4a]

/-- ASCII bytes of the ROM header title `MEGAMANBN4BMB4BE`. -/
def title_MEGAMANBN4BMB4BE : List Nat :=
  [0x4d, 0x45, 0x47, 0x41, 0x4d, 0x41, 0x4e, 0x42, 0x4e, 0x34, 0x42, 0x4d, 0x42, 0x34, 0x42, 0x45]

/-- ASCII bytes of the ROM header title `MEGAMANBN4RSB4WE`. -/
def title_MEGAMANBN4RSB4WE : List Nat :=
  [0x4d, 0x45, 0x47, 0x41, 0x4d, 0x41, 0x4e, 0x42, 0x4e, 0x34, 0x52, 0x53, 0x42, 0x34, 0x57, 0x45]

/-- ASCII bytes of the ROM header title `ROCK_EXE4_BMB4BJ`. -/
def title_ROCK_EXE4_BMB4BJ : List Nat :=
  [0x52, 0x4f, 0x43, 0x4b, 0x5f, 0x45, 0x58, 0x45, 0x34, 0x5f, 0x42, 0x4d, 0x42, 0x34, 0x42, 0x4a]

/-- ASCII bytes of the ROM header title `ROCK_EXE4_RSB4WJ`. -/
def title_ROCK_EXE4_RSB4WJ : List Nat :=
  [0x52, 0x4f, 0x43, 0x4b, 0x5f, 0x45, 0x58, 0x45, 0x34, 0x5f, 0x52, 0x53, 0x42, 0x34, 0x57, 0x4a]

/-- The titles `hooks::get` recognizes (the match arms other than `_`). -/
def recognizedTitles : List (List Nat) :=
  [title_MEGAMAN6_FXXBR6E, title_MEGAMAN6_GXXBR5E, title_ROCKEXE6_RXXBR6J,
   title_ROCKEXE6_GXXBR5J, title_MEGAMAN5_TP_BRBE, title_MEGAMAN5_TC_BRKE,
   title_ROCKEXE5_TOBBRBJ, title_ROCKEXE5_TOCBRKJ, title_MEGAMANBN4BMB4BE,
   title_MEGAMANBN4RSB4WE, title_ROCK_EXE4_BMB4BJ, title_ROCK_EXE4_RSB4WJ]

/-- Embedding of `hooks::get` (hooks.rs lines 7-43).  The ROM is embedded as
the 16 bytes read at `0x080000A0` (the header title) together with the byte
at `0x080000BC` (the revision byte), which the Rust code reads only inside
the two BN4 JP arms. -/
def hooks_get (title : List Nat) (revisionByte : Nat) : Option Adapter :=
  if title = title_MEGAMAN6_FXXBR6E then some .MEGAMAN6_FXXBR6E
  else if title = title_MEGAMAN6_GXXBR5E then some .MEGAMAN6_GXXBR5E
  else if title = title_ROCKEXE6_RXXBR6J then some .ROCKEXE6_RXXBR6J
  else if title = title_ROCKEXE6_GXXBR5J then some .ROCKEXE6_GXXBR5J
  else if title = title_MEGAMAN5_TP_BRBE then some .MEGAMAN5_TP_BRBE
  else if title = title_MEGAMAN5_TC_BRKE then some .MEGAMAN5_TC_BRKE
  else if title = title_ROCKEXE5_TOBBRBJ then some .ROCKEXE5_TOBBRBJ
  else if title = title_ROCKEXE5_TOCBRKJ then some .ROCKEXE5_TOCBRKJ
  else if title = title_MEGAMANBN4BMB4BE then some .MEGAMANBN4BMB4BE
  else if title = title_MEGAMANBN4RSB4WE then some .MEGAMANBN4RSB4WE
  else if title = title_ROCK_EXE4_BMB4BJ then
    if revisionByte = 0x00 then some .ROCK_EXE4_BMB4BJ_10
    else if revisionByte = 0x01 then some .ROCK_EXE4_BMB4BJ_11
    else none
  else if title = title_ROCK_EXE4_RSB4WJ then
    if revisionByte = 0x00 then some .ROCK_EXE4_RSB4WJ_10
    else if revisionByte = 0x01 then some .ROCK_EXE4_RSB4WJ_11
    else none
  else none

/-! ## SHAKE-128 and the lobby commitment (play_pane.rs lines 132-139 and
543-553)

Modelled from the spec: `make_commitment` calls `sha3::Shake128`, an external
crate; the spec pins it down as "SHAKE-128(domain || zstd(serialize(
NegotiatedState))) truncated to 128 bits".  SHAKE-128 is embedded below from
its public definition (FIPS 202): the Keccak-f[1600] permutation at rate
1344 bits (168 bytes) with domain-separation suffix `1111`. -/

/-- The constant `2^64`; Keccak lanes are 64-bit words. -/
def U64 : Nat := 18446744073709551616

/-- Left rotation of a 64-bit word. -/
def rotl64 (x n : Nat) : Nat :=
  ((x <<< n) ||| (x >>> (64 - n))) % U64

/-- Bitwise complement of a 64-bit word. -/
def not64 (x : Nat) : Nat := x ^^^ (U64 - 1)

/-- Keccak rho rotation offsets, as rows `y = 0..4` of lanes `x = 0..4`,
flattened to the lane index `x + 5*y`. -/
def keccakRotOffsets : List Nat :=
  [[0, 1, 62, 28, 27],
   [36, 44, 6, 55, 20],
   [3, 10, 43, 25, 39],
   [41, 45, 15, 21, 8],
   [18, 2, 61, 56, 14]].flatten

/-- The 24 Keccak iota round constants (decimal values of the FIPS 202
constants RC[0] through RC[23]). -/
def keccakRoundConstants : List Nat :=
  [1, 32898,
   9223372036854808714, 9223372039002292224,
   32907, 2147483649,
   9223372039002292353, 9223372036854808585,
   138, 136,
   2147516425, 2147483658,
   2147516555, 9223372036854775947,
   9223372036854808713, 9223372036854808579,
   9223372036854808578, 9223372036854775936,
   32778, 9223372039002259466,
   9223372039002292353, 9223372036854808704,
   2147483649, 9223372039002292232]

/-- One Keccak-f[1600] round (theta, rho, pi, chi, iota) on a 25-lane state. -/
def keccakRound (st : List Nat) (rc : Nat) : List Nat :=
  let A := fun (x y : Nat) => st.getD (x + 5 * y) 0
  let C := fun (x : Nat) => A x 0 ^^^ A x 1 ^^^ A x 2 ^^^ A x 3 ^^^ A x 4
  let D := fun (x : Nat) => C ((x + 4) % 5) ^^^ rotl64 (C ((x + 1) % 5)) 1
  let A2 := fun (x y : Nat) => A x y ^^^ D x
  let B := fun (a b : Nat) =>
    rotl64 (A2 ((a + 3 * b) % 5) a) (keccakRotOffsets.getD ((a + 3 * b) % 5 + 5 * a) 0)
  let chi := (List.range 25).map (fun i =>
    let x := i % 5
    let y := i / 5
    B x y ^^^ (not64 (B ((x + 1) % 5) y) &&& B ((x + 2) % 5) y))
  match chi with
  | [] => []
  | a0 :: rest => (a0 ^^^ rc) :: rest

/-- The Keccak-f[1600] permutation: 24 rounds. -/
def keccakF (st : List Nat) : List Nat :=
  keccakRoundConstants.foldl keccakRound st

/-- Assemble 8 little-endian bytes into a 64-bit lane. -/
def bytesToLane (bs : List Nat) : Nat :=
  bs.foldr (fun b acc => b + 256 * acc) 0

/-- Split a 64-bit lane into its 8 little-endian bytes. -/
def laneToBytes (l : Nat) : List Nat :=
  [l % 256, l / 256 % 256, l / 65536 % 256, l / 16777216 % 256,
   l / 4294967296 % 256, l / 1099511627776 % 256,
   l / 281474976710656 % 256, l / 72057594037927936 % 256]

/-- SHAKE-128 multi-rate padding: append the `0x1F` domain+pad byte, zero
fill, and set the top bit of the final byte of the 168-byte block. -/
def shake128pad (msg : List Nat) : List Nat :=
  let padLen := 168 - msg.length % 168
  if padLen = 1 then msg ++ [0x9F]
  else msg ++ [0x1F] ++ List.replicate (padLen - 2) 0 ++ [0x80]

/-- Absorb one 168-byte block into the sponge state and permute. -/
def absorbBlock (st : List Nat) (block : List Nat) : List Nat :=
  let lanes := (chunksOf 8 block).map bytesToLane
  let merged := (List.range 25).map (fun i => st.getD i 0 ^^^ lanes.getD i 0)
  keccakF merged

/-- SHAKE-128 with a 16-byte (128-bit) output, as produced by
`Shake128::finalize_xof_into(&mut [0u8; 16])`. -/
def shake128_16 (msg : List Nat) : List Nat :=
  let st := (chunksOf 168 (shake128pad msg)).foldl absorbBlock (List.replicate 25 0)
  laneToBytes (st.getD 0 0) ++ laneToBytes (st.getD 1 0)

/-- ASCII bytes of the domain string `"tango:lobby:"`. -/
def domainBytes : List Nat :=
  [0x74, 0x61, 0x6e, 0x67, 0x6f, 0x3a, 0x6c, 0x6f, 0x62, 0x62, 0x79, 0x3a]

/-- Embedding of `make_commitment` (play_pane.rs lines 132-139): SHAKE-128
over the domain string followed by the buffer, truncated to 16 bytes. -/
def make_commitment (buf : List Nat) : List Nat :=
  shake128_16 (domainBytes ++ buf)

/-- Functional model of `subtle::ConstantTimeEq::ct_eq` on byte strings: the
OR-fold of the byte-wise XORs is zero, with no early exit.  The timing
property itself is outside a shallow embedding; only the decided relation is
modelled. -/
def ct_eq (a b : List Nat) : Bool :=
  a.length == b.length &&
    (List.zipWith (fun x y => x ^^^ y) a b).all (fun z => z == 0)

/-- Embedding of the commitment check in `run_connection_task` (play_pane.rs
lines 543-553): recompute the commitment of the reassembled raw state and
compare against the received commitment; on mismatch the task aborts with
`"commitment did not match"`. -/
def check_remote_commitment (received raw : List Nat) : Except String Unit :=
  if ct_eq (make_commitment raw) received then Except.ok ()
  else Except.error "commitment did not match"

/-! ## Helper lemmas -/

theorem getD_set_self (l : List Nat) (i a : Nat) (h : i < l.length) :
    (l.set i a).getD i 0 = a := by
  rw [List.getD_eq_getElem?_getD, List.getElem?_set_eq_of_lt a h]
  rfl

theorem getD_set_of_ne (l : List Nat) (i j a : Nat) (h : i ≠ j) :
    (l.set i a).getD j 0 = l.getD j 0 := by
  rw [List.getD_eq_getElem?_getD, List.getElem?_set_ne h, List.getD_eq_getElem?_getD]

theorem zipWith_xor_getD : ∀ (a b : List Nat) (i : Nat), i < a.length → i < b.length →
    (List.zipWith (fun x y => x ^^^ y) a b).getD i 0 = a.getD i 0 ^^^ b.getD i 0 := by
  intro a
  induction a with
  | nil => intro b i h; simp at h
  | cons x xs ih =>
    intro b i
    cases b with
    | nil => intro _ hb; simp at hb
    | cons y ys =>
      cases i with
      | zero => intro _ _; simp
      | succ n =>
        intro ha hb
        simp only [List.zipWith_cons_cons, List.getD_cons_succ]
        exact ih ys n (by simpa using ha) (by simpa using hb)

/-! ## Claim theorems -/

/-- C2: for every 32-bit state `s`, `step_rng s` equals
`((2*s - (s >> 31) + 1) XOR 0x873CA9E5)` computed with wrapping (mod `2^32`)
unsigned arithmetic, and `step_rng` is a pure function of its argument. -/
theorem step_rng_formula_and_pure (s : Nat) (h : s < 4294967296) :
    step_rng s = step_rng_specFormula s ∧ ∀ t : Nat, t = s → step_rng t = step_rng s := by
  refine ⟨?_, fun t ht => by rw [ht]⟩
  unfold step_rng step_rng_specFormula add32 sub32 mul32
  apply congrArg (fun z => z ^^^ 0x873ca9e5)
  have hs : s >>> 31 = s / 2 ^ 31 := Nat.shiftRight_eq_div_pow s 31
  have h2 : (2 : Nat) ^ 31 = 2147483648 := by norm_num
  rw [hs, h2]
  omega

/-- C2 witness: the formula theorem instantiated at `s = 5`. -/
theorem step_rng_formula_and_pure_witness :
    5 < 4294967296 ∧
      (step_rng 5 = step_rng_specFormula 5 ∧ ∀ t : Nat, t = 5 → step_rng t = step_rng 5) :=
  ⟨by decide, step_rng_formula_and_pure 5 (by decide)⟩

/-- C3 counterexample: the claimed concrete values are wrong on the code.
`step_rng 0 = 0x873CA9E4` (not `0x873CA9E6`), and
`step_rng 0x873CA9E6 = 0x8945FA29` (not `0x0E79EF8D`). -/
theorem step_rng_claimed_values_false :
    ¬ (step_rng 0 = 0x873CA9E6 ∧ step_rng 0x873CA9E6 = 0x0E79EF8D) := by
  decide

/-- C3 (amended): `step_rng 0 = 0x873CA9E4`, and
`step_rng 0x873CA9E6 = 0x8945FA29`, as the recurrence gives. -/
theorem step_rng_concrete_values :
    step_rng 0 = 0x873CA9E4 ∧ step_rng 0x873CA9E6 = 0x8945FA29 := by
  decide

/-- C5: the shared RNG seed is the byte-wise XOR of the two 16-byte nonces;
it is symmetric under swapping the nonces, and the all-zeros / all-0xFF
nonces yield the all-0xFF seed. -/
theorem rng_seed_xor_spec :
    (∀ a b : List Nat, rng_seed a b = rng_seed b a) ∧
    (∀ (a b : List Nat) (i : Nat), a.length = 16 → b.length = 16 → i < 16 →
      (rng_seed a b).getD i 0 = a.getD i 0 ^^^ b.getD i 0) ∧
    rng_seed (List.replicate 16 0) (List.replicate 16 0xff) = List.replicate 16 0xff := by
  refine ⟨fun a b => List.zipWith_comm_of_comm _ Nat.xor_comm a b, ?_, by decide⟩
  intro a b i ha hb hi
  exact zipWith_xor_getD a b i (by omega) (by omega)

/-- C5 witness: the index-wise XOR equation at concrete nonces and index 3. -/
theorem rng_seed_xor_spec_witness :
    (List.replicate 16 0 : List Nat).length = 16 ∧
      (rng_seed (List.replicate 16 0) (List.replicate 16 0xff)).getD 3 0 =
        (List.replicate 16 0 : List Nat).getD 3 0 ^^^
          (List.replicate 16 0xff : List Nat).getD 3 0 :=
  ⟨by decide,
   rng_seed_xor_spec.2.1 (List.replicate 16 0) (List.replicate 16 0xff) 3
     (by decide) (by decide) (by decide)⟩

/-- C7: at `comm_menu_init_ret` the primary and the shadow each draw exactly
two rng1 candidates from the shared RNG in the same fixed order (offerer
first, answerer second); the primary installs the offerer candidate iff it is
the offerer, the shadow installs the answerer candidate iff its side is the
offerer; hence from equal shared RNG states, one side's shadow installs
exactly what the other side's primary (the opposite role) installs. -/
theorem shadow_rng1_mirrors_remote_primary :
    (∀ (r : SharedRng) (b : Bool),
      primary_comm_menu_rng1 b r =
        if b then rng1_offerer_candidate r else rng1_answerer_candidate r) ∧
    (∀ (r : SharedRng) (b : Bool),
      shadow_comm_menu_rng1 b r =
        if b then rng1_answerer_candidate r else rng1_offerer_candidate r) ∧
    (∀ (r : SharedRng) (b : Bool),
      shadow_comm_menu_rng1 b r = primary_comm_menu_rng1 (!b) r) := by
  refine ⟨fun r b => ?_, fun r b => ?_, fun r b => ?_⟩ <;> cases b <;> rfl

/-- C10: one application of BN3's `predict_rx` on a buffer of length at least
6 bumps the little-endian u16 at offsets 4..6 by 1 mod `2^16`, leaves every
other byte and the length unchanged; two applications bump the tick by 2 mod
`2^16`; and `predict_rx` is a deterministic function of its input. -/
theorem predict_rx_increments_tick (rx : List Nat) (h : 6 ≤ rx.length) :
    read_rx_tick (predict_rx rx) = (read_rx_tick rx + 1) % 65536 ∧
    (∀ i : Nat, i ≠ 4 → i ≠ 5 → (predict_rx rx).getD i 0 = rx.getD i 0) ∧
    (predict_rx rx).length = rx.length ∧
    read_rx_tick (predict_rx (predict_rx rx)) = (read_rx_tick rx + 2) % 65536 ∧
    (∀ rx2 : List Nat, rx2 = rx → predict_rx rx2 = predict_rx rx) := by
  have len4 : 4 < rx.length := by omega
  have len5 : 5 < rx.length := by omega
  have hone : ∀ l : List Nat, 4 < l.length → 5 < l.length →
      read_rx_tick (predict_rx l) = (read_rx_tick l + 1) % 65536 := by
    intro l h4 h5
    have ht : (read_rx_tick l + 1) % 65536 < 65536 := Nat.mod_lt _ (by omega)
    unfold predict_rx
    generalize hg : (read_rx_tick l + 1) % 65536 = t at ht ⊢
    unfold read_rx_tick
    rw [getD_set_self _ 5 _ (by rw [List.length_set]; exact h5),
      getD_set_of_ne _ 5 4 _ (by omega), getD_set_self _ 4 _ h4]
    omega
  have hlen : (predict_rx rx).length = rx.length := by
    unfold predict_rx
    rw [List.length_set, List.length_set]
  refine ⟨hone rx len4 len5, ?_, hlen, ?_, fun rx2 hrx => by rw [hrx]⟩
  · intro i hi4 hi5
    unfold predict_rx
    rw [getD_set_of_ne _ 5 i _ (fun hc => hi5 hc.symm),
      getD_set_of_ne _ 4 i _ (fun hc => hi4 hc.symm)]
  · rw [hone (predict_rx rx) (by omega) (by omega), hone rx len4 len5]
    omega

/-- C10 witness: the tick-increment theorem applied to a concrete 6-byte
buffer carrying tick `0xFFFF`. -/
theorem predict_rx_increments_tick_witness :
    6 ≤ ([0, 0, 0, 0, 0xff, 0xff] : List Nat).length ∧
      read_rx_tick (predict_rx [0, 0, 0, 0, 0xff, 0xff]) =
        (read_rx_tick [0, 0, 0, 0, 0xff, 0xff] + 1) % 65536 :=
  ⟨by decide, (predict_rx_increments_tick [0, 0, 0, 0, 0xff, 0xff] (by decide)).1⟩

/-- C9: on the shadow and fastforwarder handlers (and the spec-modelled
primary path), the value written to register r4 at `main_read_joyflags` is
the input's joyflags OR'd with `0xFC00`; in particular joyflags `0x0001`
yields `0xFC01`. -/
theorem joyflags_written_or_fc00 :
    (∀ (ip : Pair) (ct : Nat) (tx : List Nat) (outp : Pair) (r4 : Nat),
      bn3_shadow_read_joyflags (some ip) ct tx = .advanced outp r4 →
      r4 = ip.remote_.joyflags ||| 0xfc00) ∧
    (∀ (ip : Pair) (ct dt r4 : Nat) (sd : Bool),
      bn3_ff_read_joyflags (some ip) ct dt = .advanced r4 sd →
      r4 = ip.local_.joyflags ||| 0xfc00) ∧
    (∀ ip : Pair, bn5_shadow_read_joyflags_r4 ip = ip.remote_.joyflags ||| 0xfc00) ∧
    (∀ j : Nat, primary_joyflags_r4 j = j ||| 0xfc00) ∧
    primary_joyflags_r4 1 = 0xfc01 ∧
    (∀ (ip : Pair) (ct : Nat) (tx : List Nat) (outp : Pair) (r4 : Nat),
      ip.remote_.joyflags = 1 →
      bn3_shadow_read_joyflags (some ip) ct tx = .advanced outp r4 → r4 = 0xfc01) ∧
    (∀ (ip : Pair) (ct dt r4 : Nat) (sd : Bool),
      ip.local_.joyflags = 1 →
      bn3_ff_read_joyflags (some ip) ct dt = .advanced r4 sd → r4 = 0xfc01) := by
  refine ⟨?_, ?_, fun ip => rfl, fun j => rfl, by decide, ?_, ?_⟩
  · intro ip ct tx outp r4 h
    simp only [bn3_shadow_read_joyflags] at h
    split_ifs at h <;>
      first
        | (simp only [ShadowReadResult.advanced.injEq] at h; exact h.2.symm)
        | simp at h
  · intro ip ct dt r4 sd h
    simp only [bn3_ff_read_joyflags] at h
    split_ifs at h <;>
      first
        | (simp only [FfReadResult.advanced.injEq] at h; exact h.1.symm)
        | simp at h
  · intro ip ct tx outp r4 hj h
    simp only [bn3_shadow_read_joyflags] at h
    split_ifs at h <;>
      first
        | (simp only [ShadowReadResult.advanced.injEq] at h; rw [← h.2, hj]; decide)
        | simp at h
  · intro ip ct dt r4 sd hj h
    simp only [bn3_ff_read_joyflags] at h
    split_ifs at h <;>
      first
        | (simp only [FfReadResult.advanced.injEq] at h; rw [← h.1, hj]; decide)
        | simp at h

/-- C9 witness: the shadow handler run on a concrete aligned pair with
joyflags `0x0001` writes `0xFC01` to r4. -/
theorem joyflags_written_or_fc00_witness :
    bn3_shadow_read_joyflags
        (some (Pair.mk (Input.mk 0 0 1 [] false) (Input.mk 0 0 1 [] false))) 0 [] =
      ShadowReadResult.advanced
        (Pair.mk (Input.mk 0 0 1 [] false) (Input.mk 0 0 1 [] false)) 0xfc01 ∧
      (0xfc01 : Nat) =
        (Pair.mk (Input.mk 0 0 1 [] false) (Input.mk 0 0 1 [] false)).remote_.joyflags |||
          0xfc00 :=
  ⟨by decide,
   joyflags_written_or_fc00.1
     (Pair.mk (Input.mk 0 0 1 [] false) (Input.mk 0 0 1 [] false)) 0 []
     (Pair.mk (Input.mk 0 0 1 [] false) (Input.mk 0 0 1 [] false)) 0xfc01 (by decide)⟩

/-- C8 counterexample: a pair with `local.local_tick = 5` and
`remote.local_tick = 6` processed while `round.current_tick = 6` falls into
the one-tick permissiveness early return of the bn3 shadow rx-injection
handler: no error is set (contradicting the claim that differing ticks
always set the error slot), and nothing is injected. -/
theorem shadow_copy_input_claim_false :
    bn3_shadow_copy_input
        (some (Pair.mk (Input.mk 5 0 0 [] false) (Input.mk 6 0 0 [] false))) 6 =
      CopyInputResult.oneTickPermissive ∧
      isErrorSet (bn3_shadow_copy_input
        (some (Pair.mk (Input.mk 5 0 0 [] false) (Input.mk 6 0 0 [] false))) 6) = false := by
  decide

/-- C8 (amended): injection happens only when the pair's two local ticks and
the round's current tick all agree; when the ticks of a pair differ, or the
pair's tick differs from the round's current tick, the handler never injects
and sets the anyhow error slot — with a message beginning
`"copy input data: local tick != remote tick"` for a differing pair, and the
`"copy input data: input tick != in battle tick"` message for an aligned pair
off the current tick — except in the one-tick permissiveness case
`local_tick + 1 = current_tick`, where it returns with no error and no
injection.  The same discipline holds for the bn5 `copy_input_data_entry`
handler. -/
theorem shadow_copy_input_tick_discipline :
    (∀ (ip : Pair) (ct : Nat) (lrx rrx : List Nat),
      bn3_shadow_copy_input (some ip) ct = .injected lrx rrx →
      ip.local_.local_tick = ip.remote_.local_tick ∧ ip.local_.local_tick = ct) ∧
    (∀ (ip : Pair) (ct : Nat),
      ip.local_.local_tick ≠ ip.remote_.local_tick →
      ip.local_.local_tick + 1 ≠ ct →
      bn3_shadow_copy_input (some ip) ct =
        .errorSet (msg_copy_local_ne_remote ct ip.local_.local_tick
          ip.remote_.local_tick)) ∧
    (∀ ct lt rt : Nat, ∃ s : String,
      msg_copy_local_ne_remote ct lt rt =
        "copy input data: local tick != remote tick" ++ s) ∧
    (∀ (ip : Pair) (ct : Nat),
      ip.local_.local_tick + 1 = ct →
      bn3_shadow_copy_input (some ip) ct = .oneTickPermissive) ∧
    (∀ (gt : Nat) (ip : Pair) (ct : Nat) (lrx rrx : List Nat),
      (bn5_shadow_copy_input gt (some ip) ct).2 = .injected lrx rrx →
      ip.local_.local_tick = ip.remote_.local_tick ∧ ip.local_.local_tick = ct) ∧
    (∀ (gt : Nat) (ip : Pair) (ct : Nat),
      ip.local_.local_tick ≠ ip.remote_.local_tick →
      ip.local_.local_tick + 1 ≠ ct →
      (bn5_shadow_copy_input gt (some ip) ct).2 =
        .errorSet (msg_copy_local_ne_remote ct ip.local_.local_tick
          ip.remote_.local_tick)) ∧
    (∀ (ip : Pair) (ct : Nat),
      ip.local_.local_tick = ip.remote_.local_tick →
      ip.local_.local_tick ≠ ct →
      ip.local_.local_tick + 1 ≠ ct →
      bn3_shadow_copy_input (some ip) ct =
        .errorSet (msg_copy_input_ne_battle ip.local_.local_tick ct)) ∧
    (∀ (gt : Nat) (ip : Pair) (ct : Nat),
      ip.local_.local_tick = ip.remote_.local_tick →
      ip.local_.local_tick ≠ ct →
      ip.local_.local_tick + 1 ≠ ct →
      (bn5_shadow_copy_input gt (some ip) ct).2 =
        .errorSet (msg_copy_input_ne_battle ip.local_.local_tick ct)) := by
  refine ⟨?_, ?_, ?_, ?_, ?_, ?_, ?_, ?_⟩
  · intro ip ct lrx rrx h
    simp only [bn3_shadow_copy_input] at h
    split_ifs at h <;> first | exact ⟨by omega, by omega⟩ | simp at h
  · intro ip ct hne hperm
    simp only [bn3_shadow_copy_input]
    rw [if_neg hperm, if_pos hne]
  · intro ct lt rt
    refine ⟨" (in battle tick = " ++ toString ct ++ "): " ++ toString lt ++ " != " ++
      toString rt, ?_⟩
    unfold msg_copy_local_ne_remote
    rw [show "copy input data: local tick != remote tick (in battle tick = " =
      "copy input data: local tick != remote tick" ++ " (in battle tick = " from by decide]
    simp only [String.append_assoc]
  · intro ip ct hperm
    simp only [bn3_shadow_copy_input]
    rw [if_pos hperm]
  · intro gt ip ct lrx rrx h
    simp only [bn5_shadow_copy_input] at h
    split_ifs at h <;> first | exact ⟨by omega, by omega⟩ | simp at h
  · intro gt ip ct hne hperm
    simp only [bn5_shadow_copy_input]
    rw [if_neg hperm, if_pos hne]
  · intro ip ct heq hne hperm
    simp only [bn3_shadow_copy_input]
    rw [if_neg hperm, if_neg (not_ne_iff.mpr heq), if_pos hne]
  · intro gt ip ct heq hne hperm
    simp only [bn5_shadow_copy_input]
    rw [if_neg hperm, if_neg (not_ne_iff.mpr heq), if_pos hne]

/-- C8 witness: the amended theorem's two error branches — a differing pair
(local tick 5, remote tick 6) at current tick 0, and an aligned pair (both
ticks 5) at current tick 7. -/
theorem shadow_copy_input_tick_discipline_witness :
    ((5 : Nat) ≠ 6 ∧
      bn3_shadow_copy_input
          (some (Pair.mk (Input.mk 5 0 0 [] false) (Input.mk 6 0 0 [] false))) 0 =
        CopyInputResult.errorSet (msg_copy_local_ne_remote 0 5 6)) ∧
      ((5 : Nat) ≠ 7 ∧
        bn3_shadow_copy_input
            (some (Pair.mk (Input.mk 5 0 0 [] false) (Input.mk 5 0 0 [] false))) 7 =
          CopyInputResult.errorSet (msg_copy_input_ne_battle 5 7)) :=
  ⟨⟨by decide,
    shadow_copy_input_tick_discipline.2.1
      (Pair.mk (Input.mk 5 0 0 [] false) (Input.mk 6 0 0 [] false)) 0
      (by decide) (by decide)⟩,
   ⟨by decide,
    shadow_copy_input_tick_discipline.2.2.2.2.2.2.1
      (Pair.mk (Input.mk 5 0 0 [] false) (Input.mk 5 0 0 [] false)) 7
      (by decide) (by decide) (by decide)⟩⟩

/-- C4: the adapter lookup returns the BN4 1.0 adapter for title
`ROCK_EXE4_BMB4BJ` with revision byte `0x00`, the 1.1 adapter for `0x01`,
and `None` for any other revision byte (likewise for `ROCK_EXE4_RSB4WJ`);
and every title outside the recognized set maps to `None`. -/
theorem hooks_get_lookup :
    hooks_get title_ROCK_EXE4_BMB4BJ 0x00 = some Adapter.ROCK_EXE4_BMB4BJ_10 ∧
    hooks_get title_ROCK_EXE4_BMB4BJ 0x01 = some Adapter.ROCK_EXE4_BMB4BJ_11 ∧
    (∀ rev : Nat, rev ≠ 0x00 → rev ≠ 0x01 →
      hooks_get title_ROCK_EXE4_BMB4BJ rev = none) ∧
    hooks_get title_ROCK_EXE4_RSB4WJ 0x00 = some Adapter.ROCK_EXE4_RSB4WJ_10 ∧
    hooks_get title_ROCK_EXE4_RSB4WJ 0x01 = some Adapter.ROCK_EXE4_RSB4WJ_11 ∧
    (∀ rev : Nat, rev ≠ 0x00 → rev ≠ 0x01 →
      hooks_get title_ROCK_EXE4_RSB4WJ rev = none) ∧
    (∀ (title : List Nat) (rev : Nat), title.length = 16 →
      ¬ title ∈ recognizedTitles → hooks_get title rev = none) := by
  refine ⟨by decide, by decide, ?_, by decide, by decide, ?_, ?_⟩
  · intro rev h0 h1
    unfold hooks_get
    rw [if_neg (by decide), if_neg (by decide), if_neg (by decide), if_neg (by decide),
      if_neg (by decide), if_neg (by decide), if_neg (by decide), if_neg (by decide),
      if_neg (by decide), if_neg (by decide), if_pos rfl, if_neg h0, if_neg h1]
  · intro rev h0 h1
    unfold hooks_get
    rw [if_neg (by decide), if_neg (by decide), if_neg (by decide), if_neg (by decide),
      if_neg (by decide), if_neg (by decide), if_neg (by decide), if_neg (by decide),
      if_neg (by decide), if_neg (by decide), if_neg (by decide), if_pos rfl,
      if_neg h0, if_neg h1]
  · intro title rev hlen hmem
    have n1 : title ≠ title_MEGAMAN6_FXXBR6E := fun hc => hmem (by rw [hc]; decide)
    have n2 : title ≠ title_MEGAMAN6_GXXBR5E := fun hc => hmem (by rw [hc]; decide)
    have n3 : title ≠ title_ROCKEXE6_RXXBR6J := fun hc => hmem (by rw [hc]; decide)
    have n4 : title ≠ title_ROCKEXE6_GXXBR5J := fun hc => hmem (by rw [hc]; decide)
    have n5 : title ≠ title_MEGAMAN5_TP_BRBE := fun hc => hmem (by rw [hc]; decide)
    have n6 : title ≠ title_MEGAMAN5_TC_BRKE := fun hc => hmem (by rw [hc]; decide)
    have n7 : title ≠ title_ROCKEXE5_TOBBRBJ := fun hc => hmem (by rw [hc]; decide)
    have n8 : title ≠ title_ROCKEXE5_TOCBRKJ := fun hc => hmem (by rw [hc]; decide)
    have n9 : title ≠ title_MEGAMANBN4BMB4BE := fun hc => hmem (by rw [hc]; decide)
    have n10 : title ≠ title_MEGAMANBN4RSB4WE := fun hc => hmem (by rw [hc]; decide)
    have n11 : title ≠ title_ROCK_EXE4_BMB4BJ := fun hc => hmem (by rw [hc]; decide)
    have n12 : title ≠ title_ROCK_EXE4_RSB4WJ := fun hc => hmem (by rw [hc]; decide)
    unfold hooks_get
    rw [if_neg n1, if_neg n2, if_neg n3, if_neg n4, if_neg n5, if_neg n6, if_neg n7,
      if_neg n8, if_neg n9, if_neg n10, if_neg n11, if_neg n12]

/-- C4 witness: the lookup applied at an unrecognized all-zero title and at
revision byte 0x02 on the BN4 blue moon JP title. -/
theorem hooks_get_lookup_witness :
    (List.replicate 16 0 : List Nat).length = 16 ∧
      hooks_get (List.replicate 16 0) 0 = none ∧
      hooks_get title_ROCK_EXE4_BMB4BJ 0x02 = none :=
  ⟨by decide,
   hooks_get_lookup.2.2.2.2.2.2 (List.replicate 16 0) 0 (by decide) (by decide),
   hooks_get_lookup.2.2.1 0x02 (by decide) (by decide)⟩

theorem chunksOfAux_flatten (n : Nat) (hn : 0 < n) :
    ∀ (fuel : Nat) (l : List Nat), l.length ≤ fuel →
      (chunksOfAux n fuel l).flatten = l := by
  intro fuel
  induction fuel with
  | zero =>
    intro l hl
    cases l with
    | nil => rfl
    | cons x xs => simp at hl
  | succ m ih =>
    intro l hl
    cases l with
    | nil => rfl
    | cons x xs =>
      show (List.take n (x :: xs) :: chunksOfAux n m (List.drop n (x :: xs))).flatten
        = x :: xs
      rw [List.flatten_cons, ih _ (by
        simp only [List.length_drop, List.length_cons]
        simp only [List.length_cons] at hl
        omega)]
      exact List.take_append_drop n (x :: xs)

theorem chunksOfAux_length_le (n : Nat) :
    ∀ (fuel k : Nat) (l : List Nat), 0 < n → l.length ≤ n * k →
      (chunksOfAux n fuel l).length ≤ k := by
  intro fuel
  induction fuel with
  | zero =>
    intro k l _ _
    cases l <;> simp [chunksOfAux]
  | succ m ih =>
    intro k l hn hl
    cases l with
    | nil => simp [chunksOfAux]
    | cons x xs =>
      cases k with
      | zero =>
        rw [Nat.mul_zero] at hl
        simp at hl
      | succ k0 =>
        show (List.take n (x :: xs) :: chunksOfAux n m (List.drop n (x :: xs))).length
          ≤ k0 + 1
        simp only [List.length_cons]
        have hdrop : (List.drop n (x :: xs)).length ≤ n * k0 := by
          rw [List.length_drop]
          apply Nat.sub_le_iff_le_add.mpr
          rw [Nat.mul_succ] at hl
          exact hl
        have := ih k0 (List.drop n (x :: xs)) hn hdrop
        omega

theorem chunksOfAux_chunk_le (n : Nat) :
    ∀ (fuel : Nat) (l c : List Nat), c ∈ chunksOfAux n fuel l → c.length ≤ n := by
  intro fuel
  induction fuel with
  | zero =>
    intro l c hc
    simp [chunksOfAux] at hc
  | succ m ih =>
    intro l c hc
    cases l with
    | nil => simp [chunksOfAux] at hc
    | cons x xs =>
      have hc2 : c = List.take n (x :: xs) ∨ c ∈ chunksOfAux n m (List.drop n (x :: xs)) :=
        List.mem_cons.mp hc
      rcases hc2 with h | h
      · rw [h, List.length_take]
        omega
      · exact ih _ c h

theorem flatten_replicate_nil (k : Nat) :
    (List.replicate k ([] : List Nat)).flatten = [] := by
  induction k with
  | zero => rfl
  | succ m ih => simpa using ih

/-- C6: each side sends exactly 5 chunk packets, each at most 32 KiB, cut
from the compressed state with empty padding chunks; for a state of at most
160 KiB the receiver's concatenation reproduces exactly the sent bytes. -/
theorem chunk_roundtrip (s : List Nat) (h : s.length ≤ 163840) :
    (sent_chunks s).length = 5 ∧
    (∀ c ∈ sent_chunks s, c.length ≤ 32768) ∧
    reassembled_state (sent_chunks s) = s := by
  have hcount : (chunksOf 32768 s).length ≤ 5 :=
    chunksOfAux_length_le 32768 s.length 5 s (by omega) (by omega)
  refine ⟨?_, ?_, ?_⟩
  · unfold sent_chunks
    rw [List.length_take, List.length_append, List.length_replicate]
    omega
  · intro c hc
    unfold sent_chunks at hc
    have hc2 := List.mem_of_mem_take hc
    rcases List.mem_append.mp hc2 with h1 | h1
    · exact chunksOfAux_chunk_le 32768 s.length s c h1
    · rw [List.eq_of_mem_replicate h1]
      simp
  · unfold reassembled_state sent_chunks
    rw [List.take_append_eq_append_take, List.take_of_length_le hcount,
      List.take_replicate, List.flatten_append, flatten_replicate_nil,
      List.append_nil]
    exact chunksOfAux_flatten 32768 (by omega) s.length s (by omega)

/-- C6 witness: the chunking theorem applied to a concrete 3-byte state. -/
theorem chunk_roundtrip_witness :
    ([1, 2, 3] : List Nat).length ≤ 163840 ∧
      ((sent_chunks [1, 2, 3]).length = 5 ∧
        (∀ c ∈ sent_chunks [1, 2, 3], c.length ≤ 32768) ∧
        reassembled_state (sent_chunks [1, 2, 3]) = [1, 2, 3]) :=
  ⟨by decide, chunk_roundtrip [1, 2, 3] (by decide)⟩

theorem ct_eq_iff : ∀ a b : List Nat, ct_eq a b = true ↔ a = b := by
  intro a
  induction a with
  | nil =>
    intro b
    cases b with
    | nil => simp [ct_eq]
    | cons y ys => simp [ct_eq]
  | cons x xs ih =>
    intro b
    cases b with
    | nil => simp [ct_eq]
    | cons y ys =>
      constructor
      · intro h
        unfold ct_eq at h
        simp only [List.length_cons, List.zipWith_cons_cons, List.all_cons,
          Bool.and_eq_true, beq_iff_eq] at h
        obtain ⟨hlen, hxy, hall⟩ := h
        have hys : ct_eq xs ys = true := by
          unfold ct_eq
          rw [Bool.and_eq_true]
          exact ⟨by rw [beq_iff_eq]; omega, hall⟩
        rw [Nat.xor_eq_zero.mp hxy, (ih ys).mp hys]
      · intro h
        cases h
        have hxs : ct_eq xs xs = true := (ih xs).mpr rfl
        unfold ct_eq at hxs ⊢
        rw [Bool.and_eq_true] at hxs
        simp [Nat.xor_self, hxs.2]

/-- C1: the lobby commitment is the 16-byte SHAKE-128 digest of
`"tango:lobby:"` followed by the compressed negotiated state; the receiving
side recomputes the commitment of the reassembled raw bytes and compares (a
functional model of the constant-time comparison), and every mismatch —
including the concrete all-zero commitment against raw bytes `[0x01]` —
aborts the connection task with the error `"commitment did not match"`. -/
theorem commitment_check_spec :
    (∀ buf : List Nat, make_commitment buf = shake128_16 (domainBytes ++ buf)) ∧
    (∀ buf : List Nat, (make_commitment buf).length = 16) ∧
    (∀ received raw : List Nat, make_commitment raw ≠ received →
      check_remote_commitment received raw = Except.error "commitment did not match") ∧
    (∀ received raw : List Nat, check_remote_commitment received raw = Except.ok () →
      make_commitment raw = received) ∧
    check_remote_commitment (List.replicate 16 0) [0x01] =
      Except.error "commitment did not match" := by
  refine ⟨fun buf => rfl, ?_, ?_, ?_, ?_⟩
  · intro buf
    unfold make_commitment shake128_16
    simp [laneToBytes]
  · intro received raw hne
    unfold check_remote_commitment
    rw [if_neg]
    intro hc
    exact hne ((ct_eq_iff _ _).mp hc)
  · intro received raw h
    unfold check_remote_commitment at h
    split at h
    · exact (ct_eq_iff _ _).mp (by assumption)
    · exact Except.noConfusion h
  · unfold check_remote_commitment
    rw [if_neg]
    intro hc
    have := (ct_eq_iff _ _).mp hc
    revert this
    decide

/-- C1 witness: the mismatch-abort branch applied at the concrete all-zero
received commitment against raw bytes `[0x01]`. -/
theorem commitment_check_spec_witness :
    make_commitment [0x01] ≠ List.replicate 16 0 ∧
      check_remote_commitment (List.replicate 16 0) [0x01] =
        Except.error "commitment did not match" :=
  ⟨by decide, commitment_check_spec.2.2.1 (List.replicate 16 0) [0x01] (by decide)⟩

end Tango
